import Mathlib

/-!
Verification of the map-explorer orchestration layer (src/App.tsx).

Numbers (coordinates, distances, durations, elevations) are embedded as
rationals.  The external collaborators that are not part of the sources
(the distance function from services/mapboxService, the curation client,
the walking-route client and the static seed list from ./constants) are
taken as parameters: the distance function as an argument, the curation
and routing responses as `Except` values, the seed list as a list
argument.  State updates of the React component are modelled as pure
functions on an explicit `AppState` record.
-/

/-- Value type for WGS84 coordinate pairs (types.ts is not in the sources;
Modelled from the spec: "Coordinates: lng, lat pair, WGS84 degrees"). -/
structure Coordinates where
  lng : ℚ
  lat : ℚ
deriving DecidableEq, Repr

/-- Optional via waypoint carried by a route (modelled from the spec's data
model: "optional via waypoint (coordinates + label)"). -/
structure ViaWaypoint where
  name : String
  coordinates : Coordinates
deriving DecidableEq, Repr

/-- Route record (modelled from the spec's data model: distance, duration,
geometry, steps, estimate flag, optional elevation gain, optional via
waypoint).  The geometry is the ordered list of coordinate pairs. -/
structure Route where
  distance : ℚ
  duration : ℚ
  geometry : List Coordinates
  steps : List String
  isEstimate : Bool
  elevationGain : Option ℚ
  viaWaypoint : Option ViaWaypoint
deriving DecidableEq, Repr

/-- Destination record (modelled from the spec's data model: stable id,
display name, category, coordinates, opening hours, optional elevation,
optional route, optional preferred waypoints, optional linked route id). -/
structure EnrichedDestination where
  id : String
  name : String
  category : String
  coordinates : Coordinates
  openingHours : Option String
  elevation : Option ℚ
  route : Option Route
  preferredWaypoints : List Coordinates
  linkedScenicRouteId : Option String
deriving DecidableEq, Repr

/-- The last camera command sent to the map surface (flyTo in the selection
handler, fitBounds after a successful routing response). -/
inductive CameraCmd
  | idle
  | flyTo (center : Coordinates) (zoom : ℚ)
  | fitBounds (coords : List Coordinates)
deriving DecidableEq, Repr

/-- The state of the AppContent component relevant to the claims:
the useState slots userLocation, userElevation, destinations,
selectedDestination, isLoading, plus the lastCalcLocation ref and the
last camera command (App.tsx lines 73-84). -/
structure AppState where
  userLocation : Option Coordinates
  userElevation : Option ℚ
  destinations : List EnrichedDestination
  selectedDestination : Option EnrichedDestination
  isLoading : Bool
  lastCalcLocation : Option Coordinates
  camera : CameraCmd
deriving DecidableEq, Repr

/-- The estimate attached to one destination by the map body inside
updateRoutes (App.tsx lines 274-280): straight-line distance times the
1.35 detour factor, duration that value over 1.4, empty geometry and
steps, isEstimate true, net elevation gain when both elevations are
known.  `gd` is the external getDistance function
(services/mapboxService is not in the sources). -/
def estimateFor (gd : Coordinates → Coordinates → ℚ)
    (userLocation : Coordinates) (userElevation : Option ℚ)
    (d : EnrichedDestination) : EnrichedDestination :=
  let dist := gd userLocation d.coordinates
  let estWalkDist := dist * (1.35 : ℚ)
  let netElev : Option ℚ :=
    match d.elevation, userElevation with
    | some de, some ue => some (de - ue)
    | _, _ => none
  let r : Route :=
    { distance := estWalkDist,
      duration := estWalkDist / (1.4 : ℚ),
      geometry := [],
      steps := [],
      isEstimate := true,
      elevationGain := netElev,
      viaWaypoint := none }
  { d with route := some r }

/-- The sort key of the comparator in App.tsx line 282:
`(a.route?.distance || Infinity)`.  A missing route yields Infinity, and
so does a distance of 0, because 0 is falsy in JavaScript and the
short-circuiting or-operator then yields Infinity as well. -/
def routeDistanceOrInfinity (d : EnrichedDestination) : WithTop ℚ :=
  match d.route with
  | none => ⊤
  | some r => if r.distance = 0 then ⊤ else (r.distance : WithTop ℚ)

/-- The preorder the comparator of App.tsx line 282 induces on
destinations. -/
def destLE (a b : EnrichedDestination) : Prop :=
  routeDistanceOrInfinity a ≤ routeDistanceOrInfinity b

instance : DecidableRel destLE := fun a b =>
  inferInstanceAs (Decidable (routeDistanceOrInfinity a ≤ routeDistanceOrInfinity b))

instance : IsTotal EnrichedDestination destLE :=
  ⟨fun a b => le_total (routeDistanceOrInfinity a) (routeDistanceOrInfinity b)⟩

instance : IsTrans EnrichedDestination destLE :=
  ⟨fun _ _ _ => le_trans⟩

/-- The in-place stable sort `curated.sort((a, b) => (a.route?.distance ||
Infinity) - (b.route?.distance || Infinity))` of App.tsx line 282,
modelled by a stable insertion sort under the induced preorder. -/
def sortByRouteDistance (l : List EnrichedDestination) : List EnrichedDestination :=
  List.insertionSort destLE l

/-- The guard expression of updateRoutes (App.tsx line 269):
`!lastCalcLocation.current || (userLocation &&
getDistance(userLocation, lastCalcLocation.current) > 20)`. -/
def isLocChanged (gd : Coordinates → Coordinates → ℚ) (s : AppState) : Bool :=
  match s.lastCalcLocation with
  | none => true
  | some last =>
    match s.userLocation with
    | none => false
    | some u => decide (gd u last > 20)

/-- The synchronous prefix of one updateRoutes invocation (App.tsx lines
268-280): when the guard `userLocation && destinations.length > 0 &&
!isLoading && isLocChanged` holds, set the loading flag, advance
lastCalcLocation to the current user location, and issue the curation
request carrying the estimate-augmented list; otherwise do nothing.
The second component is the issued request payload, none when no
re-curation starts. -/
def recurationStart (gd : Coordinates → Coordinates → ℚ) (s : AppState) :
    AppState × Option (List EnrichedDestination) :=
  match s.userLocation with
  | none => (s, none)
  | some u =>
    if !s.destinations.isEmpty && !s.isLoading && isLocChanged gd s then
      ({ s with isLoading := true, lastCalcLocation := some u },
       some (s.destinations.map (estimateFor gd u s.userElevation)))
    else (s, none)

/-- The settling of a pending re-curation (App.tsx lines 281-288): on a
successful curation response, sort it by route distance, install it as
the destination list and re-resolve the selection by id; on failure the
catch block swallows the error and only the finally block runs, clearing
the loading flag. -/
def recurationSettle (s : AppState)
    (response : Except Unit (List EnrichedDestination)) : AppState :=
  match response with
  | .error _ => { s with isLoading := false }
  | .ok curated =>
    let sortedList := sortByRouteDistance curated
    let sel :=
      match s.selectedDestination with
      | none => none
      | some sd =>
        match sortedList.find? (fun d => d.id == sd.id) with
        | some updated => some updated
        | none => some sd
    { s with destinations := sortedList, selectedDestination := sel, isLoading := false }

/-- A change of one of the two dependencies of the updateRoutes effect
(App.tsx line 292): the user location or the user elevation. -/
inductive AppEvent
  | locationChange (c : Coordinates)
  | elevationChange (e : ℚ)
deriving DecidableEq, Repr

/-- Writing the changed dependency into the state, before the effect
re-runs. -/
def eventState (ev : AppEvent) (s : AppState) : AppState :=
  match ev with
  | .locationChange c => { s with userLocation := some c }
  | .elevationChange e => { s with userElevation := some e }

/-- One dependency change followed by the re-run of the updateRoutes
effect: write the new value, then attempt to start a re-curation. -/
def applyUserEvent (gd : Coordinates → Coordinates → ℚ) (ev : AppEvent)
    (s : AppState) : AppState × Option (List EnrichedDestination) :=
  recurationStart gd (eventState ev s)

/-- A sequence of dependency changes, collecting every curation request
issued along the way. -/
def applyUserEvents (gd : Coordinates → Coordinates → ℚ) :
    List AppEvent → AppState → AppState × List (List EnrichedDestination)
  | [], s => (s, [])
  | ev :: rest, s =>
    let step := applyUserEvent gd ev s
    let next := applyUserEvents gd rest step.1
    (next.1, step.2.toList ++ next.2)

/-- The condition under which the selection handler issues a routing
request (App.tsx line 298): `!destination.route ||
destination.route.isEstimate`. -/
def needsRealRoute (destination : EnrichedDestination) : Bool :=
  match destination.route with
  | none => true
  | some r => r.isEstimate

/-- Outcome of one run of the selection handler: the next state, the
number of walking-route requests issued, and whether an exception
escaped the handler uncaught (the body is try/finally with no catch
clause, so a rejected routing request propagates out of the handler
after the finally block clears the loading flag). -/
structure SelectResult where
  state : AppState
  walkRequests : Nat
  uncaughtError : Bool
deriving DecidableEq, Repr

/-- handleSelectDestination (App.tsx lines 294-315): set the selection,
fly the camera to the destination, and when the user location is known
and the destination's route is missing or an estimate, issue one
getWalkingRoute request; on a route result, replace the route on the
selected destination and in the list and fit the camera to the route
geometry; the finally block clears the loading flag on every path.
`walk` stands for the external routing response: an error for a rejected
promise, `ok none` for a fulfilled request carrying no route. -/
def handleSelectDestination (walk : Except Unit (Option Route))
    (s : AppState) (destination : EnrichedDestination) : SelectResult :=
  let s0 := { s with selectedDestination := some destination,
                     camera := CameraCmd.flyTo destination.coordinates 14 }
  match s.userLocation with
  | none => { state := s0, walkRequests := 0, uncaughtError := false }
  | some _ =>
    if needsRealRoute destination then
      match walk with
      | .error _ =>
        let s1 := { s0 with isLoading := false }
        { state := s1, walkRequests := 1, uncaughtError := true }
      | .ok none =>
        let s1 := { s0 with isLoading := false }
        { state := s1, walkRequests := 1, uncaughtError := false }
      | .ok (some realRoute) =>
        let updated := { destination with route := some realRoute }
        let s1 :=
          { s0 with selectedDestination := some updated,
                    destinations := s0.destinations.map
                      (fun d => if d.id == destination.id then updated else d),
                    camera := CameraCmd.fitBounds realRoute.geometry,
                    isLoading := false }
        { state := s1, walkRequests := 1, uncaughtError := false }
    else { state := s0, walkRequests := 0, uncaughtError := false }

/-- handleCategoryFilter (App.tsx lines 335-340): replace the destination
list with the seed list filtered to the requested category and clear the
selection.  `seed` stands for the static FEATURED_CAFES constant
(./constants is not in the sources). -/
def handleCategoryFilter (seed : List EnrichedDestination) (ty : String)
    (s : AppState) : AppState :=
  { s with destinations := seed.filter (fun p => p.category == ty),
           selectedDestination := none }

/-! Concrete fixtures used by witnesses and counterexamples. -/

/-- A concrete coordinate pair. -/
def originPoint : Coordinates := { lng := 0, lat := 0 }

/-- Another concrete coordinate pair. -/
def farPoint : Coordinates := { lng := 100, lat := 0 }

/-- A concrete non-estimate route with the given distance. -/
def plainRoute (q : ℚ) : Route :=
  { distance := q, duration := 1, geometry := [], steps := [],
    isEstimate := false, elevationGain := none, viaWaypoint := none }

/-- A concrete destination with the given id and route. -/
def plainDest (i : String) (r : Option Route) : EnrichedDestination :=
  { id := i, name := i, category := "cafe", coordinates := originPoint,
    openingHours := none, elevation := none, route := r,
    preferredWaypoints := [], linkedScenicRouteId := none }

/-- A concrete component state: user at the origin, one routeless
destination, nothing selected, not loading, no recompute yet. -/
def baseState : AppState :=
  { userLocation := some originPoint, userElevation := none,
    destinations := [plainDest "a" none], selectedDestination := none,
    isLoading := false, lastCalcLocation := none, camera := CameraCmd.idle }

/-- A concrete distance function (constant 100 units). -/
def constantDistance : Coordinates → Coordinates → ℚ := fun _ _ => 100

/-! Helper lemmas about the embedded operations. -/

theorem recurationSettle_error (s : AppState) :
    recurationSettle s (.error ()) = { s with isLoading := false } := rfl

theorem eventState_destinations (ev : AppEvent) (s : AppState) :
    (eventState ev s).destinations = s.destinations := by
  cases ev <;> rfl

theorem eventState_isLoading (ev : AppEvent) (s : AppState) :
    (eventState ev s).isLoading = s.isLoading := by
  cases ev <;> rfl

theorem eventState_lastCalcLocation (ev : AppEvent) (s : AppState) :
    (eventState ev s).lastCalcLocation = s.lastCalcLocation := by
  cases ev <;> rfl

theorem recurationStart_of_isLoading (gd : Coordinates → Coordinates → ℚ)
    (s : AppState) (h : s.isLoading = true) : recurationStart gd s = (s, none) := by
  unfold recurationStart
  cases hu : s.userLocation with
  | none => rfl
  | some u => simp [h]

theorem recurationStart_fst_destinations (gd : Coordinates → Coordinates → ℚ)
    (s : AppState) : (recurationStart gd s).1.destinations = s.destinations := by
  unfold recurationStart
  cases hu : s.userLocation with
  | none => rfl
  | some u =>
    dsimp only
    split <;> rfl

theorem recurationStart_fst_selected (gd : Coordinates → Coordinates → ℚ)
    (s : AppState) : (recurationStart gd s).1.selectedDestination = s.selectedDestination := by
  unfold recurationStart
  cases hu : s.userLocation with
  | none => rfl
  | some u =>
    dsimp only
    split <;> rfl

/-! Claim theorems. -/

/-- Claim C1: for every destination D and every user position U, the
estimate attached during the re-curation pipeline has route.distance
equal to the straight-line distance from U to D's coordinates multiplied
by 1.35, and route.duration equal to that product divided by 1.4. -/
theorem c1_estimate_distance_duration (gd : Coordinates → Coordinates → ℚ)
    (s s1 : AppState) (payload : List EnrichedDestination) (u : Coordinates)
    (hU : s.userLocation = some u)
    (hstart : recurationStart gd s = (s1, some payload)) :
    List.Forall₂
      (fun d e => ∃ r, e.route = some r ∧
        r.distance = gd u d.coordinates * (1.35 : ℚ) ∧
        r.duration = gd u d.coordinates * (1.35 : ℚ) / (1.4 : ℚ) ∧
        r.isEstimate = true)
      s.destinations payload := by
  unfold recurationStart at hstart
  rw [hU] at hstart
  dsimp only at hstart
  split at hstart
  · have hpay : s.destinations.map (estimateFor gd u s.userElevation) = payload := by
      have := congrArg Prod.snd hstart
      simpa using this
    subst hpay
    rw [List.forall₂_map_right_iff, List.forall₂_same]
    intro d _
    exact ⟨_, rfl, rfl, rfl, rfl⟩
  · simp at hstart

/-- Witness for C1 at a concrete state: one destination 100 units away,
estimate distance 135, duration 675/7. -/
theorem c1_estimate_distance_duration_witness :
    baseState.userLocation = some originPoint ∧
    recurationStart constantDistance baseState =
      ({ baseState with isLoading := true, lastCalcLocation := some originPoint },
       some (baseState.destinations.map
         (estimateFor constantDistance originPoint none))) ∧
    List.Forall₂
      (fun d e => ∃ r, e.route = some r ∧
        r.distance = constantDistance originPoint d.coordinates * (1.35 : ℚ) ∧
        r.duration = constantDistance originPoint d.coordinates * (1.35 : ℚ) / (1.4 : ℚ) ∧
        r.isEstimate = true)
      baseState.destinations
      (baseState.destinations.map (estimateFor constantDistance originPoint none)) :=
  ⟨rfl, rfl,
    c1_estimate_distance_duration constantDistance baseState
      { baseState with isLoading := true, lastCalcLocation := some originPoint }
      (baseState.destinations.map (estimateFor constantDistance originPoint none))
      originPoint rfl rfl⟩

/-- The sort key claim C2 describes: route.distance when present, infinite
only when the entry lacks a distance.  This follows the spec's words, to
be compared with the comparator key the code actually uses
(routeDistanceOrInfinity). -/
def specDistanceKey (d : EnrichedDestination) : WithTop ℚ :=
  match d.route with
  | none => ⊤
  | some r => (r.distance : WithTop ℚ)

/-- A curation response containing a zero-distance entry and a
five-unit entry. -/
def zeroDistanceResponse : List EnrichedDestination :=
  [plainDest "b" (some (plainRoute 0)), plainDest "a" (some (plainRoute 5))]

/-- Counterexample to claim C2 as stated: the comparator in App.tsx line
282 reads `a.route?.distance || Infinity`, and a distance of 0 is falsy
in JavaScript, so a zero-distance entry is keyed as Infinity and placed
last.  Installing the response [b (distance 0), a (distance 5)] yields a
list that is not sorted ascending by route.distance with only the
distance-lacking entries last. -/
theorem c2_zero_distance_counterexample :
    ¬ List.Pairwise (fun a b => specDistanceKey a ≤ specDistanceKey b)
        (recurationSettle baseState (.ok zeroDistanceResponse)).destinations := by
  decide

/-- Claim C2 amended: after a successful curation response, the installed
destination list is a permutation of the response sorted ascending by
route.distance, where an entry lacking a distance, or whose distance
equals 0 (a falsy value the comparator replaces with Infinity), is
treated as infinitely far and placed after all others. -/
theorem c2_sorted_with_zero_as_infinity (s : AppState)
    (curated : List EnrichedDestination) :
    ((recurationSettle s (.ok curated)).destinations).Perm curated ∧
    List.Sorted destLE (recurationSettle s (.ok curated)).destinations := by
  constructor
  · show (sortByRouteDistance curated).Perm curated
    exact List.perm_insertionSort destLE curated
  · show List.Sorted destLE (sortByRouteDistance curated)
    exact List.sorted_insertionSort destLE curated

/-- Claim C7: for every failure of the curation request during the
re-curation pipeline, the failure is swallowed and the destination list
(and the selection) retains exactly its pre-failure value; only the
loading flag is cleared. -/
theorem c7_curation_failure_keeps_list (gd : Coordinates → Coordinates → ℚ)
    (s : AppState) :
    (recurationSettle (recurationStart gd s).1 (.error ())).destinations = s.destinations ∧
    (recurationSettle (recurationStart gd s).1 (.error ())).selectedDestination =
      s.selectedDestination ∧
    (recurationSettle (recurationStart gd s).1 (.error ())).isLoading = false := by
  rw [recurationSettle_error]
  exact ⟨recurationStart_fst_destinations gd s,
    recurationStart_fst_selected gd s, rfl⟩

/-- Claim C8: applying the category filter replaces the destination list
with exactly the members of the seed set whose category equals the
requested one (a sublist of the seed list, membership characterised by
the category, multiplicity preserved) and clears any selection. -/
theorem c8_category_filter_effect (seed : List EnrichedDestination)
    (ty : String) (s : AppState) :
    (handleCategoryFilter seed ty s).selectedDestination = none ∧
    ((handleCategoryFilter seed ty s).destinations).Sublist seed ∧
    (∀ d, d ∈ (handleCategoryFilter seed ty s).destinations ↔
      d ∈ seed ∧ d.category = ty) ∧
    (handleCategoryFilter seed ty s).destinations.length =
      seed.countP (fun p => p.category == ty) := by
  refine ⟨rfl, ?_, ?_, ?_⟩
  · exact List.filter_sublist seed
  · intro d
    simp [handleCategoryFilter, List.mem_filter]
  · show (seed.filter (fun p => p.category == ty)).length = _
    exact (List.countP_eq_length_filter _ _).symm

/-- A concrete state whose user location is unknown. -/
def noLocationState : AppState := { baseState with userLocation := none }

/-- Counterexample to claim C3 as stated: selecting a destination whose
route is absent while the user location is unknown issues zero
walking-route requests, not exactly one (App.tsx line 298 also requires
`userLocation`). -/
theorem c3_selection_request_counterexample :
    needsRealRoute (plainDest "a" none) = true ∧
    (handleSelectDestination (.ok (some (plainRoute 9))) noLocationState
      (plainDest "a" none)).walkRequests = 0 := by
  decide

/-- Claim C3 amended: for every selection made while the user location is
known, a destination whose route is absent or flagged as an estimate
leads to exactly one walking-route request, and on success the fetched
route is the one rendered on the selection; a destination already
holding a non-estimate route leads to no request and keeps its route. -/
theorem c3_selection_request_count (walk : Except Unit (Option Route))
    (s : AppState) (destination : EnrichedDestination) (u : Coordinates)
    (hU : s.userLocation = some u) :
    (needsRealRoute destination = true →
      (handleSelectDestination walk s destination).walkRequests = 1 ∧
      ∀ r, walk = .ok (some r) →
        (handleSelectDestination walk s destination).state.selectedDestination =
          some { destination with route := some r }) ∧
    (needsRealRoute destination = false →
      (handleSelectDestination walk s destination).walkRequests = 0 ∧
      (handleSelectDestination walk s destination).state.selectedDestination =
        some destination) := by
  constructor
  · intro hneed
    constructor
    · unfold handleSelectDestination
      rw [hU]
      dsimp only
      rw [if_pos hneed]
      cases walk with
      | error e => rfl
      | ok o => cases o <;> rfl
    · intro r hr
      subst hr
      unfold handleSelectDestination
      rw [hU]
      dsimp only
      rw [if_pos hneed]
  · intro hneed
    unfold handleSelectDestination
    rw [hU]
    dsimp only
    rw [if_neg (by simp [hneed])]
    exact ⟨rfl, rfl⟩

/-- Witness for the amended C3 at a concrete state: location known, one
routeless destination, a successful routing response. -/
theorem c3_selection_request_count_witness :
    baseState.userLocation = some originPoint ∧
    ((needsRealRoute (plainDest "a" none) = true →
      (handleSelectDestination (.ok (some (plainRoute 9))) baseState
        (plainDest "a" none)).walkRequests = 1 ∧
      ∀ r, (Except.ok (some (plainRoute 9)) : Except Unit (Option Route)) = .ok (some r) →
        (handleSelectDestination (.ok (some (plainRoute 9))) baseState
          (plainDest "a" none)).state.selectedDestination =
          some { plainDest "a" none with route := some r }) ∧
    (needsRealRoute (plainDest "a" none) = false →
      (handleSelectDestination (.ok (some (plainRoute 9))) baseState
        (plainDest "a" none)).walkRequests = 0 ∧
      (handleSelectDestination (.ok (some (plainRoute 9))) baseState
        (plainDest "a" none)).state.selectedDestination =
        some (plainDest "a" none))) :=
  ⟨rfl, c3_selection_request_count (.ok (some (plainRoute 9))) baseState
    (plainDest "a" none) originPoint rfl⟩

/-- Counterexample to claim C4 as stated: the selection handler's body is
try/finally with no catch clause (App.tsx lines 300-313), so a rejected
walking-route request is not caught at the call site: it escapes the
handler after the finally block clears the loading flag. -/
theorem c4_rejection_uncaught_counterexample :
    (handleSelectDestination (.error ()) baseState (plainDest "a" none)).uncaughtError
      = true ∧
    needsRealRoute (plainDest "a" none) = true := by
  decide

/-- Claim C4 amended: a walking-route request issued by the selection
handler that is rejected leaves the previously held estimate route on
the selected destination and the destination list unchanged, clears the
loading flag and yields a well-defined next state (no crash), but the
rejection is not caught at the call site: it propagates out of the
handler; a request that merely returns no route is handled in place with
the same unchanged state and nothing propagates. -/
theorem c4_rejection_keeps_state (s : AppState)
    (destination : EnrichedDestination) (u : Coordinates)
    (hU : s.userLocation = some u) (hneed : needsRealRoute destination = true) :
    ((handleSelectDestination (.error ()) s destination).state.destinations =
        s.destinations ∧
      (handleSelectDestination (.error ()) s destination).state.selectedDestination =
        some destination ∧
      (handleSelectDestination (.error ()) s destination).state.isLoading = false ∧
      (handleSelectDestination (.error ()) s destination).walkRequests = 1 ∧
      (handleSelectDestination (.error ()) s destination).uncaughtError = true) ∧
    ((handleSelectDestination (.ok none) s destination).state.destinations =
        s.destinations ∧
      (handleSelectDestination (.ok none) s destination).state.selectedDestination =
        some destination ∧
      (handleSelectDestination (.ok none) s destination).state.isLoading = false ∧
      (handleSelectDestination (.ok none) s destination).uncaughtError = false) := by
  constructor
  · unfold handleSelectDestination
    rw [hU]
    dsimp only
    rw [if_pos hneed]
    exact ⟨rfl, rfl, rfl, rfl, rfl⟩
  · unfold handleSelectDestination
    rw [hU]
    dsimp only
    rw [if_pos hneed]
    exact ⟨rfl, rfl, rfl, rfl⟩

/-- Witness for the amended C4 at a concrete state: location known, a
routeless destination, the routing request rejected. -/
theorem c4_rejection_keeps_state_witness :
    baseState.userLocation = some originPoint ∧
    needsRealRoute (plainDest "a" none) = true ∧
    (((handleSelectDestination (.error ()) baseState (plainDest "a" none)).state.destinations =
        baseState.destinations ∧
      (handleSelectDestination (.error ()) baseState
        (plainDest "a" none)).state.selectedDestination = some (plainDest "a" none) ∧
      (handleSelectDestination (.error ()) baseState
        (plainDest "a" none)).state.isLoading = false ∧
      (handleSelectDestination (.error ()) baseState
        (plainDest "a" none)).walkRequests = 1 ∧
      (handleSelectDestination (.error ()) baseState
        (plainDest "a" none)).uncaughtError = true) ∧
    ((handleSelectDestination (.ok none) baseState
        (plainDest "a" none)).state.destinations = baseState.destinations ∧
      (handleSelectDestination (.ok none) baseState
        (plainDest "a" none)).state.selectedDestination = some (plainDest "a" none) ∧
      (handleSelectDestination (.ok none) baseState
        (plainDest "a" none)).state.isLoading = false ∧
      (handleSelectDestination (.ok none) baseState
        (plainDest "a" none)).uncaughtError = false)) :=
  ⟨rfl, rfl,
    c4_rejection_keeps_state baseState (plainDest "a" none) originPoint rfl rfl⟩

/-- Claim C10: for every selection of a destination made while the user
location is unknown, the handler sets that destination as selected and
moves the camera to it, but issues no routing request, leaves the
destination list unchanged, and nothing propagates out of the handler,
even when the destination's route is absent or an estimate. -/
theorem c10_selection_without_location (walk : Except Unit (Option Route))
    (s : AppState) (destination : EnrichedDestination)
    (hU : s.userLocation = none) :
    (handleSelectDestination walk s destination).state.selectedDestination =
      some destination ∧
    (handleSelectDestination walk s destination).state.camera =
      CameraCmd.flyTo destination.coordinates 14 ∧
    (handleSelectDestination walk s destination).walkRequests = 0 ∧
    (handleSelectDestination walk s destination).state.destinations = s.destinations ∧
    (handleSelectDestination walk s destination).uncaughtError = false := by
  unfold handleSelectDestination
  rw [hU]
  exact ⟨rfl, rfl, rfl, rfl, rfl⟩

/-- Witness for C10 at a concrete state: unknown location, routeless
destination, a routing response that would succeed if it were ever
requested. -/
theorem c10_selection_without_location_witness :
    noLocationState.userLocation = none ∧
    ((handleSelectDestination (.ok (some (plainRoute 9))) noLocationState
        (plainDest "a" none)).state.selectedDestination = some (plainDest "a" none) ∧
      (handleSelectDestination (.ok (some (plainRoute 9))) noLocationState
        (plainDest "a" none)).state.camera =
        CameraCmd.flyTo (plainDest "a" none).coordinates 14 ∧
      (handleSelectDestination (.ok (some (plainRoute 9))) noLocationState
        (plainDest "a" none)).walkRequests = 0 ∧
      (handleSelectDestination (.ok (some (plainRoute 9))) noLocationState
        (plainDest "a" none)).state.destinations = noLocationState.destinations ∧
      (handleSelectDestination (.ok (some (plainRoute 9))) noLocationState
        (plainDest "a" none)).uncaughtError = false) :=
  ⟨rfl, c10_selection_without_location (.ok (some (plainRoute 9))) noLocationState
    (plainDest "a" none) rfl⟩

/-- Claim C5: for every user-location or user-elevation change where the
straight-line displacement from the location of the last recompute is at
most 20 units, no re-curation runs (no request is issued, the state
keeps only the dependency write, the destination list is unchanged);
and a re-curation triggers only when that displacement exceeds 20
units. -/
theorem c5_displacement_threshold (gd : Coordinates → Coordinates → ℚ)
    (s : AppState) (L : Coordinates) (ev : AppEvent)
    (hL : s.lastCalcLocation = some L) :
    (∀ U, (eventState ev s).userLocation = some U → gd U L ≤ 20 →
      (applyUserEvent gd ev s).2 = none ∧
      (applyUserEvent gd ev s).1 = eventState ev s ∧
      (applyUserEvent gd ev s).1.destinations = s.destinations) ∧
    ((applyUserEvent gd ev s).2.isSome = true →
      ∃ U, (eventState ev s).userLocation = some U ∧ gd U L > 20) := by
  have htL : (eventState ev s).lastCalcLocation = some L :=
    (eventState_lastCalcLocation ev s).trans hL
  constructor
  · intro U hU hle
    have hloc : isLocChanged gd (eventState ev s) = false := by
      unfold isLocChanged
      rw [htL, hU]
      simp only [decide_eq_false_iff_not, not_lt]
      exact hle
    unfold applyUserEvent recurationStart
    rw [hU]
    dsimp only
    rw [if_neg (by simp [hloc])]
    exact ⟨rfl, rfl, eventState_destinations ev s⟩
  · intro h
    cases hu : (eventState ev s).userLocation with
    | none =>
      unfold applyUserEvent recurationStart at h
      rw [hu] at h
      simp at h
    | some U =>
      unfold applyUserEvent recurationStart at h
      rw [hu] at h
      dsimp only at h
      by_cases hc : (!(eventState ev s).destinations.isEmpty &&
          !(eventState ev s).isLoading && isLocChanged gd (eventState ev s)) = true
      · have hconds := hc
        simp only [Bool.and_eq_true] at hconds
        have h3 : isLocChanged gd (eventState ev s) = true := hconds.2
        unfold isLocChanged at h3
        rw [htL, hu] at h3
        simp only [decide_eq_true_eq] at h3
        exact ⟨U, rfl, h3⟩
      · rw [if_neg hc] at h
        simp at h

/-- A concrete state that has already recomputed at the origin. -/
def recalcState : AppState := { baseState with lastCalcLocation := some originPoint }

/-- Witness for C5 at a concrete state: last recompute at the origin, a
location change far away. -/
theorem c5_displacement_threshold_witness :
    recalcState.lastCalcLocation = some originPoint ∧
    ((∀ U, (eventState (.locationChange farPoint) recalcState).userLocation = some U →
      constantDistance U originPoint ≤ 20 →
      (applyUserEvent constantDistance (.locationChange farPoint) recalcState).2 = none ∧
      (applyUserEvent constantDistance (.locationChange farPoint) recalcState).1 =
        eventState (.locationChange farPoint) recalcState ∧
      (applyUserEvent constantDistance (.locationChange farPoint)
        recalcState).1.destinations = recalcState.destinations) ∧
    ((applyUserEvent constantDistance (.locationChange farPoint) recalcState).2.isSome
        = true →
      ∃ U, (eventState (.locationChange farPoint) recalcState).userLocation = some U ∧
        constantDistance U originPoint > 20)) :=
  ⟨rfl, c5_displacement_threshold constantDistance recalcState originPoint
    (.locationChange farPoint) rfl⟩

/-- Claim C6: while a re-curation is pending (loading flag set and not yet
settled), no second re-curation starts, regardless of how many location
or elevation updates arrive in the interim: no curation request is
issued, the destination list and the last-recompute location are
untouched, and the loading flag stays set. -/
theorem c6_no_overlapping_recuration (gd : Coordinates → Coordinates → ℚ)
    (evs : List AppEvent) (s : AppState) (h : s.isLoading = true) :
    (applyUserEvents gd evs s).2 = [] ∧
    (applyUserEvents gd evs s).1.destinations = s.destinations ∧
    (applyUserEvents gd evs s).1.isLoading = true ∧
    (applyUserEvents gd evs s).1.lastCalcLocation = s.lastCalcLocation := by
  induction evs generalizing s with
  | nil => exact ⟨rfl, rfl, h, rfl⟩
  | cons ev rest ih =>
    have hes : (eventState ev s).isLoading = true := (eventState_isLoading ev s).trans h
    have hstep : applyUserEvent gd ev s = (eventState ev s, none) :=
      recurationStart_of_isLoading gd (eventState ev s) hes
    have ihs := ih (eventState ev s) hes
    simp only [applyUserEvents, hstep]
    refine ⟨?_, ?_, ?_, ?_⟩
    · simpa using ihs.1
    · rw [ihs.2.1, eventState_destinations]
    · exact ihs.2.2.1
    · rw [ihs.2.2.2, eventState_lastCalcLocation]

/-- A concrete state whose re-curation is pending. -/
def loadingState : AppState := { baseState with isLoading := true }

/-- Witness for C6 at a concrete state: a pending re-curation and two
interim updates, one location change and one elevation change. -/
theorem c6_no_overlapping_recuration_witness :
    loadingState.isLoading = true ∧
    ((applyUserEvents constantDistance
        [.locationChange farPoint, .elevationChange 5] loadingState).2 = [] ∧
      (applyUserEvents constantDistance
        [.locationChange farPoint, .elevationChange 5] loadingState).1.destinations =
        loadingState.destinations ∧
      (applyUserEvents constantDistance
        [.locationChange farPoint, .elevationChange 5] loadingState).1.isLoading = true ∧
      (applyUserEvents constantDistance
        [.locationChange farPoint, .elevationChange 5] loadingState).1.lastCalcLocation =
        loadingState.lastCalcLocation) :=
  ⟨rfl, c6_no_overlapping_recuration constantDistance
    [.locationChange farPoint, .elevationChange 5] loadingState rfl⟩

/-- Claim C9: when a re-curation attempt's curation request fails, the
recorded last-recompute location has already been advanced to the
triggering user location before the request was sent; so after the
failure the destination list is the pre-failure one, and a further
re-curation triggers only once the user moves more than 20 units from
the failed attempt's location, not from the last successful one. -/
theorem c9_lastCalc_advances_on_failure (gd : Coordinates → Coordinates → ℚ)
    (s s1 : AppState) (payload : List EnrichedDestination) (u1 : Coordinates)
    (hU : s.userLocation = some u1)
    (hstart : recurationStart gd s = (s1, some payload)) :
    (recurationSettle s1 (.error ())).lastCalcLocation = some u1 ∧
    (recurationSettle s1 (.error ())).destinations = s.destinations ∧
    (recurationSettle s1 (.error ())).isLoading = false ∧
    (∀ u2, gd u2 u1 ≤ 20 →
      (applyUserEvent gd (.locationChange u2) (recurationSettle s1 (.error ()))).2 =
        none ∧
      (applyUserEvent gd (.locationChange u2)
        (recurationSettle s1 (.error ()))).1.destinations = s.destinations) ∧
    (∀ u2, gd u2 u1 > 20 →
      ((applyUserEvent gd (.locationChange u2)
        (recurationSettle s1 (.error ()))).2).isSome = true) := by
  unfold recurationStart at hstart
  rw [hU] at hstart
  dsimp only at hstart
  by_cases hc : (!s.destinations.isEmpty && !s.isLoading && isLocChanged gd s) = true
  · rw [if_pos hc] at hstart
    have hne : s.destinations.isEmpty = false := by
      have h0 := hc
      simp only [Bool.and_eq_true, Bool.not_eq_true'] at h0
      exact h0.1.1
    have hs1 := congrArg Prod.fst hstart
    dsimp only at hs1
    subst hs1
    rw [recurationSettle_error]
    refine ⟨rfl, rfl, rfl, ?_, ?_⟩
    · intro u2 hle
      have hdec : decide (gd u2 u1 > 20) = false := by
        simp only [decide_eq_false_iff_not, not_lt]
        exact hle
      unfold applyUserEvent eventState recurationStart
      dsimp only [isLocChanged]
      rw [hdec]
      simp
    · intro u2 hgt
      have hdec : decide (gd u2 u1 > 20) = true := decide_eq_true hgt
      unfold applyUserEvent eventState recurationStart
      dsimp only [isLocChanged]
      rw [hdec, hne]
      rfl
  · rw [if_neg hc] at hstart
    simp at hstart

/-- Witness for C9 at a concrete state: the guard holds at baseState (user
at the origin, one destination, not loading, no previous recompute), so
the request is issued with lastCalcLocation advanced to the origin. -/
theorem c9_lastCalc_advances_on_failure_witness :
    baseState.userLocation = some originPoint ∧
    recurationStart constantDistance baseState =
      ({ baseState with isLoading := true, lastCalcLocation := some originPoint },
       some (baseState.destinations.map (estimateFor constantDistance originPoint none))) ∧
    ((recurationSettle
        { baseState with isLoading := true, lastCalcLocation := some originPoint }
        (.error ())).lastCalcLocation = some originPoint ∧
      (recurationSettle
        { baseState with isLoading := true, lastCalcLocation := some originPoint }
        (.error ())).destinations = baseState.destinations ∧
      (recurationSettle
        { baseState with isLoading := true, lastCalcLocation := some originPoint }
        (.error ())).isLoading = false ∧
      (∀ u2, constantDistance u2 originPoint ≤ 20 →
        (applyUserEvent constantDistance (.locationChange u2)
          (recurationSettle
            { baseState with isLoading := true, lastCalcLocation := some originPoint }
            (.error ()))).2 = none ∧
        (applyUserEvent constantDistance (.locationChange u2)
          (recurationSettle
            { baseState with isLoading := true, lastCalcLocation := some originPoint }
            (.error ()))).1.destinations = baseState.destinations) ∧
      (∀ u2, constantDistance u2 originPoint > 20 →
        ((applyUserEvent constantDistance (.locationChange u2)
          (recurationSettle
            { baseState with isLoading := true, lastCalcLocation := some originPoint }
            (.error ()))).2).isSome = true)) :=
  ⟨rfl, rfl,
    c9_lastCalc_advances_on_failure constantDistance baseState
      { baseState with isLoading := true, lastCalcLocation := some originPoint }
      (baseState.destinations.map (estimateFor constantDistance originPoint none))
      originPoint rfl rfl⟩
